import Mathlib

/-!
Verification of the `activity` block of `tristan/i3status-rust`
(`src/blocks/activity.rs`), as a shallow embedding.

Modelling conventions:
* Monotonic `Instant`s are natural numbers counting milliseconds; for an
  instant `t` recorded in the past and the current instant `now`,
  `Instant::elapsed().as_secs()` is `(now - t) / 1000`.
* The configured `Duration`s (`interval`, `reset_time`, `idle_threshold`)
  are read by the block only through `as_secs()`, so they are modelled as
  whole seconds.
* `get_idle`, which queries XScreenSaver, is modelled on its two inputs:
  the status returned by `XScreenSaverQueryInfo` (0 means the query is not
  supported) and the `idle` millisecond field of the info structure.
* The `Result::unwrap()` call in `update` is modelled by `Option`: `none`
  stands for a panic.
-/

namespace Activity

/-- Severity states of the rendered widget (`widget::State`); the activity
block uses exactly these three variants. -/
inductive WState where
  | Info
  | Warning
  | Critical
deriving DecidableEq, Repr

/-- Derived phase classification of a tick, named after which arm of the
`if`/`else if`/`else` chain in `Activity::update` (lines 162-180) is taken.
It is recomputed every tick, never stored. -/
inductive Phase where
  | Active
  | Idle
  | AwayComplete
deriving DecidableEq, Repr

/-- The configured durations of the block, in whole seconds (the block reads
them only via `as_secs()`). Defaults: interval 1, reset_time 300,
idle_threshold 10. -/
structure ActivityConfig where
  interval : Nat
  reset_time : Nat
  idle_threshold : Nat
deriving DecidableEq, Repr

/-- The mutable state of `Activity`: the two `Instant` anchors (milliseconds
of monotonic time) and the last raw idle reading (`u64` milliseconds). -/
structure ActivityState where
  start_time : Nat
  idle_start_time : Nat
  idle_last_reading : Nat
deriving DecidableEq, Repr

/-- Embeds `Instant::elapsed().as_secs()`: whole seconds between a past instant `t`
and the current instant `now`, both in milliseconds. -/
def elapsedSecs (now t : Nat) : Nat :=
  (now - t) / 1000

/-- Embeds `get_idle` (lines 43-50): when `XScreenSaverQueryInfo` returns 0
the query is not supported and the result is `Ok(0)`; otherwise the result is
`Ok` of the `idle` field of the info structure. It never returns an error. -/
def get_idle (queryStatus : Int) (infoIdle : Nat) : Except String Nat :=
  if queryStatus = 0 then Except.ok 0 else Except.ok infoIdle

/-- Embeds `Result::unwrap()`: the value on `Ok`, a panic (modelled `none`) on
`Err`. -/
def unwrapResult (r : Except String Nat) : Option Nat :=
  match r with
  | Except.ok v => some v
  | Except.error _ => none

/-- The drift-compensated idle value in milliseconds (lines 151-158): when
the raw reading `idle0` equals `idle_last_reading` and at least
`idle_threshold` whole seconds have elapsed since `idle_start_time`, the
whole seconds elapsed since `idle_start_time`, times 1000, are added to the
raw reading; otherwise the raw reading is kept. -/
def compensatedIdleMs (cfg : ActivityConfig) (s : ActivityState) (now idle0 : Nat) : Nat :=
  if idle0 = s.idle_last_reading then
    if elapsedSecs now s.idle_start_time ≥ cfg.idle_threshold then
      idle0 + elapsedSecs now s.idle_start_time * 1000
    else
      idle0
  else
    idle0

/-- The effect of lines 151-158 on the state: when the raw reading differs
from `idle_last_reading`, both `idle_start_time` and `idle_last_reading` are
reset; otherwise the state is untouched. -/
def driftState (s : ActivityState) (now idle0 : Nat) : ActivityState :=
  if idle0 = s.idle_last_reading then
    s
  else
    { s with idle_start_time := now, idle_last_reading := idle0 }

/-- The canonical idle seconds of a tick (line 160): the compensated
millisecond value divided by 1000. -/
def idleSeconds (cfg : ActivityConfig) (s : ActivityState) (now idle0 : Nat) : Nat :=
  compensatedIdleMs cfg s now idle0 / 1000

/-- The severity tiers of the active countup (lines 175-179): the `match` on
`elapsed` with arms `0..=1800`, `1801..=3000` and the rest. -/
def activeSeverity (elapsed : Nat) : WState :=
  if elapsed ≤ 1800 then WState.Info
  else if elapsed ≤ 3000 then WState.Warning
  else WState.Critical

/-- Embeds the `format!` width-2 zero-fill specifier: decimal digits of `n`, zero-padded on the
left to a width of at least two. -/
def pad2 (n : Nat) : String :=
  if n < 10 then "0" ++ toString n else toString n

/-- The duration formatting of lines 182-192, including the two mutable
reassignments of `seconds` and `minutes`. -/
def formatDuration (elapsed : Nat) : String :=
  let seconds := elapsed
  let minutes := (seconds - seconds % 60) / 60
  let seconds := if seconds ≥ 60 then seconds % 60 else seconds
  let hours := (minutes - minutes % 60) / 60
  let minutes := if minutes ≥ 60 then minutes % 60 else minutes
  pad2 hours ++ "h" ++ pad2 minutes ++ "m" ++ pad2 seconds

/-- Everything a tick produces: the state after the tick, the branch taken,
the displayed elapsed seconds, the label text, the severity, and the
requested next wake-up interval (`Update::Every(update_interval)`). -/
structure UpdateResult where
  state : ActivityState
  phase : Phase
  elapsed : Nat
  text : String
  severity : WState
  nextInterval : Nat
deriving DecidableEq, Repr

/-- The body of `Activity::update` (lines 142-196) after the idle reading has
been unwrapped to `idle0`: drift compensation, phase classification, label
formatting. -/
def updateCore (cfg : ActivityConfig) (s : ActivityState) (now idle0 : Nat) : UpdateResult :=
  let s1 := driftState s now idle0
  let idle := idleSeconds cfg s now idle0
  let r : ActivityState × Phase × Nat × WState :=
    if idle ≥ cfg.reset_time then
      ({ s1 with start_time := now }, Phase.AwayComplete, 0, WState.Info)
    else if idle ≥ cfg.idle_threshold then
      let elapsed := cfg.reset_time - idle
      (s1, Phase.Idle, elapsed, if elapsed > 0 then WState.Warning else WState.Info)
    else
      let elapsed := elapsedSecs now s1.start_time
      (s1, Phase.Active, elapsed, activeSeverity elapsed)
  { state := r.1
    phase := r.2.1
    elapsed := r.2.2.1
    text := formatDuration r.2.2.1
    severity := r.2.2.2
    nextInterval := cfg.interval }

/-- Embeds `Activity::update` in full: read the idle signal, unwrap it (a panic is
`none`), then run the tick body. -/
def update (cfg : ActivityConfig) (s : ActivityState) (now : Nat)
    (queryStatus : Int) (infoIdle : Nat) : Option UpdateResult :=
  match unwrapResult (get_idle queryStatus infoIdle) with
  | none => none
  | some idle0 => some (updateCore cfg s now idle0)

/-- Embeds `Activity::click` (lines 202-205): unconditionally reset `start_time` to
the current instant. -/
def click (s : ActivityState) (now : Nat) : ActivityState :=
  { s with start_time := now }

/-- The phase a given idle-seconds value is classified into, following the
priority order of the `if` chain: `AwayComplete` first, then `Idle`, then
`Active`. -/
def classify (cfg : ActivityConfig) (idle : Nat) : Phase :=
  if idle ≥ cfg.reset_time then Phase.AwayComplete
  else if idle ≥ cfg.idle_threshold then Phase.Idle
  else Phase.Active

/-- The state a tick leaves behind is the drift-adjusted state, except that
the `AwayComplete` branch additionally resets `start_time` to `now`; in
particular the idle anchors of the result are those of `driftState`. -/
theorem updateCore_state_idle_fields (cfg : ActivityConfig) (s : ActivityState)
    (now idle0 : Nat) :
    (updateCore cfg s now idle0).state.idle_start_time
        = (driftState s now idle0).idle_start_time ∧
    (updateCore cfg s now idle0).state.idle_last_reading
        = (driftState s now idle0).idle_last_reading := by
  simp only [updateCore]
  split
  · exact ⟨rfl, rfl⟩
  · split
    · exact ⟨rfl, rfl⟩
    · exact ⟨rfl, rfl⟩

/-- Claim C1: on a tick whose raw reading equals `idle_last_reading` while at
least `idle_threshold` whole seconds have elapsed since `idle_start_time`,
the compensated idle value is the raw reading plus the whole elapsed seconds
times 1000, and the two idle anchors are left unchanged; on a tick whose raw
reading differs from `idle_last_reading`, no compensation is added and the
anchors are reset to `now` and the raw reading. -/
theorem C1_drift_compensation (cfg : ActivityConfig) (s : ActivityState) (now idle0 : Nat) :
    (idle0 = s.idle_last_reading →
      cfg.idle_threshold ≤ elapsedSecs now s.idle_start_time →
      compensatedIdleMs cfg s now idle0
          = idle0 + elapsedSecs now s.idle_start_time * 1000 ∧
      (updateCore cfg s now idle0).state.idle_start_time = s.idle_start_time ∧
      (updateCore cfg s now idle0).state.idle_last_reading = s.idle_last_reading) ∧
    (idle0 ≠ s.idle_last_reading →
      compensatedIdleMs cfg s now idle0 = idle0 ∧
      (updateCore cfg s now idle0).state.idle_start_time = now ∧
      (updateCore cfg s now idle0).state.idle_last_reading = idle0) := by
  obtain ⟨hf1, hf2⟩ := updateCore_state_idle_fields cfg s now idle0
  constructor
  · intro h1 h2
    refine ⟨?_, ?_, ?_⟩
    · simp [compensatedIdleMs, h1, h2]
    · rw [hf1]; simp [driftState, h1]
    · rw [hf2]; simp [driftState, h1]
  · intro h1
    refine ⟨?_, ?_, ?_⟩
    · simp [compensatedIdleMs, h1]
    · rw [hf1]; simp [driftState, h1]
    · rw [hf2]; simp [driftState, h1]

/-- Claim C8: on a tick, the anchors `idle_start_time` and `idle_last_reading`
are both unchanged when the raw reading equals the stored one, and both
updated (to `now` and the raw reading) exactly when it differs; a click
changes neither. -/
theorem C8_anchors_updated_together (cfg : ActivityConfig) (s : ActivityState)
    (now idle0 now2 : Nat) :
    (idle0 = s.idle_last_reading →
      (updateCore cfg s now idle0).state.idle_start_time = s.idle_start_time ∧
      (updateCore cfg s now idle0).state.idle_last_reading = s.idle_last_reading) ∧
    (idle0 ≠ s.idle_last_reading →
      (updateCore cfg s now idle0).state.idle_start_time = now ∧
      (updateCore cfg s now idle0).state.idle_last_reading = idle0) ∧
    (click s now2).idle_start_time = s.idle_start_time ∧
    (click s now2).idle_last_reading = s.idle_last_reading := by
  obtain ⟨hf1, hf2⟩ := updateCore_state_idle_fields cfg s now idle0
  refine ⟨?_, ?_, rfl, rfl⟩
  · intro h1
    rw [hf1, hf2]; simp [driftState, h1]
  · intro h1
    rw [hf1, hf2]; simp [driftState, h1]

/-- The drift adjustment never touches `start_time`. -/
theorem driftState_start_time (s : ActivityState) (now idle0 : Nat) :
    (driftState s now idle0).start_time = s.start_time := by
  unfold driftState
  split
  · rfl
  · rfl

/-- The first arm of the classification chain: with `idle_seconds` at least
`reset_time`, the tick resets `start_time`, displays 0 and reports Info. -/
theorem updateCore_away_branch (cfg : ActivityConfig) (s : ActivityState) (now idle0 : Nat)
    (h : idleSeconds cfg s now idle0 ≥ cfg.reset_time) :
    (updateCore cfg s now idle0).phase = Phase.AwayComplete ∧
    (updateCore cfg s now idle0).state.start_time = now ∧
    (updateCore cfg s now idle0).elapsed = 0 ∧
    (updateCore cfg s now idle0).severity = WState.Info := by
  simp only [updateCore]
  rw [if_pos h]
  exact ⟨rfl, rfl, rfl, rfl⟩

/-- The second arm of the classification chain: with `idle_seconds` below
`reset_time` but at least `idle_threshold`, the tick displays the countdown
`reset_time - idle_seconds` and reports Warning when it is positive. -/
theorem updateCore_idle_branch (cfg : ActivityConfig) (s : ActivityState) (now idle0 : Nat)
    (h1 : ¬ idleSeconds cfg s now idle0 ≥ cfg.reset_time)
    (h2 : idleSeconds cfg s now idle0 ≥ cfg.idle_threshold) :
    (updateCore cfg s now idle0).phase = Phase.Idle ∧
    (updateCore cfg s now idle0).elapsed
        = cfg.reset_time - idleSeconds cfg s now idle0 ∧
    (updateCore cfg s now idle0).severity
        = (if 0 < cfg.reset_time - idleSeconds cfg s now idle0
            then WState.Warning else WState.Info) := by
  simp only [updateCore]
  rw [if_neg h1, if_pos h2]
  exact ⟨rfl, rfl, rfl⟩

/-- The third arm of the classification chain: with `idle_seconds` below both
thresholds, the tick displays the whole seconds since `start_time` and tiers
its severity through `activeSeverity`. -/
theorem updateCore_active_branch (cfg : ActivityConfig) (s : ActivityState) (now idle0 : Nat)
    (h1 : ¬ idleSeconds cfg s now idle0 ≥ cfg.reset_time)
    (h2 : ¬ idleSeconds cfg s now idle0 ≥ cfg.idle_threshold) :
    (updateCore cfg s now idle0).phase = Phase.Active ∧
    (updateCore cfg s now idle0).elapsed = elapsedSecs now s.start_time ∧
    (updateCore cfg s now idle0).severity
        = activeSeverity (elapsedSecs now s.start_time) ∧
    (updateCore cfg s now idle0).state.start_time = s.start_time := by
  have hd := driftState_start_time s now idle0
  simp only [updateCore]
  rw [if_neg h1, if_neg h2, hd]
  exact ⟨rfl, rfl, rfl, rfl⟩

/-- Claim C2: on a tick in the Idle range
(`idle_threshold ≤ idle_seconds < reset_time`), the displayed elapsed value
is exactly `reset_time - idle_seconds`, and the severity is Warning whenever
that countdown is positive and Info whenever it is zero. -/
theorem C2_idle_countdown (cfg : ActivityConfig) (s : ActivityState) (now idle0 : Nat)
    (h1 : cfg.idle_threshold ≤ idleSeconds cfg s now idle0)
    (h2 : idleSeconds cfg s now idle0 < cfg.reset_time) :
    (updateCore cfg s now idle0).phase = Phase.Idle ∧
    (updateCore cfg s now idle0).elapsed
        = cfg.reset_time - idleSeconds cfg s now idle0 ∧
    (0 < cfg.reset_time - idleSeconds cfg s now idle0 →
      (updateCore cfg s now idle0).severity = WState.Warning) ∧
    (cfg.reset_time - idleSeconds cfg s now idle0 = 0 →
      (updateCore cfg s now idle0).severity = WState.Info) := by
  obtain ⟨hp, he, hs⟩ := updateCore_idle_branch cfg s now idle0 (by omega) h1
  refine ⟨hp, he, ?_, ?_⟩
  · intro hpos
    rw [hs, if_pos hpos]
  · intro hzero
    omega

/-- Witness for C2 at a concrete tick: defaults (interval 1, reset 300,
threshold 10), a fresh raw reading of 50000 ms, hence 50 idle seconds and a
countdown of 250. -/
theorem C2_idle_countdown_witness :
    (updateCore ⟨1, 300, 10⟩ ⟨0, 0, 0⟩ 0 50000).elapsed
        = 300 - idleSeconds ⟨1, 300, 10⟩ ⟨0, 0, 0⟩ 0 50000 :=
  (C2_idle_countdown ⟨1, 300, 10⟩ ⟨0, 0, 0⟩ 0 50000 (by decide) (by decide)).2.1

/-- Claim C4: on a tick with `idle_seconds ≥ reset_time`, `start_time` is
reset to the current instant, the displayed elapsed value is 0, and the
severity is Info. -/
theorem C4_away_complete (cfg : ActivityConfig) (s : ActivityState) (now idle0 : Nat)
    (h : cfg.reset_time ≤ idleSeconds cfg s now idle0) :
    (updateCore cfg s now idle0).phase = Phase.AwayComplete ∧
    (updateCore cfg s now idle0).state.start_time = now ∧
    (updateCore cfg s now idle0).elapsed = 0 ∧
    (updateCore cfg s now idle0).severity = WState.Info :=
  updateCore_away_branch cfg s now idle0 h

/-- Witness for C4 at a concrete tick: defaults, raw reading 300000 ms =
300 idle seconds, exactly `reset_time`. -/
theorem C4_away_complete_witness :
    (updateCore ⟨1, 300, 10⟩ ⟨0, 0, 0⟩ 7000 300000).state.start_time = 7000 ∧
    (updateCore ⟨1, 300, 10⟩ ⟨0, 0, 0⟩ 7000 300000).elapsed = 0 ∧
    (updateCore ⟨1, 300, 10⟩ ⟨0, 0, 0⟩ 7000 300000).severity = WState.Info :=
  (C4_away_complete ⟨1, 300, 10⟩ ⟨0, 0, 0⟩ 7000 300000 (by decide)).2

/-- Counterexample to claim C5 as stated: at the default configuration
(reset 300 s, threshold 10 s), the final Idle second — idle 299 s, the last
value before the AwayComplete transition — reports Warning, not Info. -/
theorem C5_final_second_counterexample :
    10 ≤ idleSeconds ⟨1, 300, 10⟩ ⟨0, 0, 299000⟩ 0 299000 ∧
    idleSeconds ⟨1, 300, 10⟩ ⟨0, 0, 299000⟩ 0 299000 = 299 ∧
    (updateCore ⟨1, 300, 10⟩ ⟨0, 0, 299000⟩ 0 299000).severity = WState.Warning ∧
    (updateCore ⟨1, 300, 10⟩ ⟨0, 0, 299000⟩ 0 299000).severity ≠ WState.Info := by
  refine ⟨by decide, by decide, ?_, ?_⟩
  · decide
  · decide

/-- Claim C5 as amended: on every tick in the Idle range, including the final
second `idle_seconds = reset_time - 1`, the countdown is positive and the
severity is Warning, never Info; the Info arm of the Idle branch is dead. -/
theorem C5_idle_always_warning (cfg : ActivityConfig) (s : ActivityState) (now idle0 : Nat)
    (h1 : cfg.idle_threshold ≤ idleSeconds cfg s now idle0)
    (h2 : idleSeconds cfg s now idle0 < cfg.reset_time) :
    (updateCore cfg s now idle0).severity = WState.Warning ∧
    (updateCore cfg s now idle0).severity ≠ WState.Info := by
  obtain ⟨_, _, hs⟩ := updateCore_idle_branch cfg s now idle0 (by omega) h1
  rw [hs, if_pos (by omega)]
  exact ⟨rfl, by simp⟩

/-- Witness for the amended C5 at a concrete tick: defaults, idle 299 s (the
final second of the Idle range). -/
theorem C5_idle_always_warning_witness :
    (updateCore ⟨1, 300, 10⟩ ⟨0, 0, 0⟩ 0 299000).severity = WState.Warning ∧
    (updateCore ⟨1, 300, 10⟩ ⟨0, 0, 0⟩ 0 299000).severity ≠ WState.Info :=
  C5_idle_always_warning ⟨1, 300, 10⟩ ⟨0, 0, 0⟩ 0 299000 (by decide) (by decide)

/-- Claim C10: in the Idle branch — reached exactly when the AwayComplete
test fails and `idle_seconds ≥ idle_threshold` holds — the subtraction
`reset_time - idle_seconds` cannot underflow (`idle_seconds < reset_time`)
and is strictly positive, so the Info arm of that branch is unreachable and
the Idle phase always reports Warning. -/
theorem C10_idle_branch_no_underflow (cfg : ActivityConfig) (s : ActivityState)
    (now idle0 : Nat)
    (h1 : ¬ idleSeconds cfg s now idle0 ≥ cfg.reset_time)
    (h2 : idleSeconds cfg s now idle0 ≥ cfg.idle_threshold) :
    idleSeconds cfg s now idle0 < cfg.reset_time ∧
    0 < cfg.reset_time - idleSeconds cfg s now idle0 ∧
    (updateCore cfg s now idle0).phase = Phase.Idle ∧
    (updateCore cfg s now idle0).severity = WState.Warning := by
  obtain ⟨hp, _, hs⟩ := updateCore_idle_branch cfg s now idle0 h1 h2
  refine ⟨by omega, by omega, hp, ?_⟩
  rw [hs, if_pos (by omega)]

/-- Witness for C10 at a concrete tick: defaults, idle 10 s, the first
second of the Idle range. -/
theorem C10_idle_branch_no_underflow_witness :
    idleSeconds ⟨1, 300, 10⟩ ⟨0, 0, 0⟩ 0 10000 < 300 ∧
    0 < 300 - idleSeconds ⟨1, 300, 10⟩ ⟨0, 0, 0⟩ 0 10000 ∧
    (updateCore ⟨1, 300, 10⟩ ⟨0, 0, 0⟩ 0 10000).phase = Phase.Idle ∧
    (updateCore ⟨1, 300, 10⟩ ⟨0, 0, 0⟩ 0 10000).severity = WState.Warning :=
  C10_idle_branch_no_underflow ⟨1, 300, 10⟩ ⟨0, 0, 0⟩ 0 10000 (by decide) (by decide)

/-- Claim C3: on a tick classified Active — per the priority order of the chain,
`idle_seconds` is below `idle_threshold` and the AwayComplete test failed —
the displayed elapsed value is the whole wall-clock seconds since
`start_time`, and the severity is Info on [0, 1800], Warning on (1800, 3000]
and Critical above 3000; the boundaries 1800, 1801, 3000, 3001 map to Info,
Warning, Warning, Critical. -/
theorem C3_active_countup (cfg : ActivityConfig) (s : ActivityState) (now idle0 : Nat)
    (h : classify cfg (idleSeconds cfg s now idle0) = Phase.Active) :
    idleSeconds cfg s now idle0 < cfg.idle_threshold ∧
    (updateCore cfg s now idle0).phase = Phase.Active ∧
    (updateCore cfg s now idle0).elapsed = elapsedSecs now s.start_time ∧
    (elapsedSecs now s.start_time ≤ 1800 →
      (updateCore cfg s now idle0).severity = WState.Info) ∧
    (1800 < elapsedSecs now s.start_time → elapsedSecs now s.start_time ≤ 3000 →
      (updateCore cfg s now idle0).severity = WState.Warning) ∧
    (3000 < elapsedSecs now s.start_time →
      (updateCore cfg s now idle0).severity = WState.Critical) ∧
    activeSeverity 1800 = WState.Info ∧
    activeSeverity 1801 = WState.Warning ∧
    activeSeverity 3000 = WState.Warning ∧
    activeSeverity 3001 = WState.Critical := by
  have h1 : ¬ idleSeconds cfg s now idle0 ≥ cfg.reset_time := by
    intro hge
    rw [classify, if_pos hge] at h
    exact Phase.noConfusion h
  have h2 : ¬ idleSeconds cfg s now idle0 ≥ cfg.idle_threshold := by
    intro hge
    rw [classify, if_neg h1, if_pos hge] at h
    exact Phase.noConfusion h
  obtain ⟨hp, he, hs, _⟩ := updateCore_active_branch cfg s now idle0 h1 h2
  refine ⟨by omega, hp, he, ?_, ?_, ?_, rfl, rfl, rfl, rfl⟩
  · intro hle
    rw [hs, activeSeverity, if_pos hle]
  · intro hgt hle
    rw [hs, activeSeverity, if_neg (by omega), if_pos hle]
  · intro hgt
    rw [hs, activeSeverity, if_neg (by omega), if_neg (by omega)]

/-- Witness for C3 at a concrete tick: defaults, raw reading 5000 ms = 5 idle
seconds (below the threshold), a start anchor 2000000 ms before now. -/
theorem C3_active_countup_witness :
    (updateCore ⟨1, 300, 10⟩ ⟨0, 0, 0⟩ 2000000 5000).elapsed
        = elapsedSecs 2000000 0 ∧
    (updateCore ⟨1, 300, 10⟩ ⟨0, 0, 0⟩ 2000000 5000).severity = WState.Warning :=
  ⟨(C3_active_countup ⟨1, 300, 10⟩ ⟨0, 0, 0⟩ 2000000 5000 (by decide)).2.2.1,
   (C3_active_countup ⟨1, 300, 10⟩ ⟨0, 0, 0⟩ 2000000 5000 (by decide)).2.2.2.2.1
      (by decide) (by decide)⟩

/-- The reassignment chain of lines 182-190 computes the standard
hour/minute/second decomposition: hours `n / 3600`, minutes `n / 60 % 60`,
seconds `n % 60`. -/
theorem formatDuration_eq (n : Nat) :
    formatDuration n
        = pad2 (n / 3600) ++ "h" ++ pad2 (n / 60 % 60) ++ "m" ++ pad2 (n % 60) := by
  simp only [formatDuration]
  have hm : (n - n % 60) / 60 = n / 60 := by omega
  rw [hm]
  have hh : (n / 60 - n / 60 % 60) / 60 = n / 3600 := by omega
  rw [hh]
  have hs : (if n ≥ 60 then n % 60 else n) = n % 60 := by
    split
    · rfl
    · omega
  have hmm : (if n / 60 ≥ 60 then n / 60 % 60 else n / 60) = n / 60 % 60 := by
    split
    · rfl
    · omega
  rw [hs, hmm]

/-- Claim C6: the formatted label of `n` displayed seconds is
`pad2 (n / 3600) ++ "h" ++ pad2 (n / 60 % 60) ++ "m" ++ pad2 (n % 60)`, with
`pad2` zero-padding to at least two digits; 3725, 59 and 3600 format as
"01h02m05", "00h00m59" and "01h00m00". -/
theorem C6_format_hhmmss (n : Nat) :
    formatDuration n
        = pad2 (n / 3600) ++ "h" ++ pad2 (n / 60 % 60) ++ "m" ++ pad2 (n % 60) ∧
    formatDuration 3725 = "01h02m05" ∧
    formatDuration 59 = "00h00m59" ∧
    formatDuration 3600 = "01h00m00" :=
  ⟨formatDuration_eq n, by decide, by decide, by decide⟩

/-- Claim C7: a click only moves `start_time` to the current instant,
leaving `idle_start_time` and `idle_last_reading` untouched; hence a tick
right after the click whose idle seconds reach `idle_threshold` still
classifies as Idle or AwayComplete. -/
theorem C7_click_resets_start_only (s : ActivityState) (now : Nat)
    (cfg : ActivityConfig) (now2 idle0 : Nat)
    (h : cfg.idle_threshold ≤ idleSeconds cfg (click s now) now2 idle0) :
    (click s now).start_time = now ∧
    (click s now).idle_start_time = s.idle_start_time ∧
    (click s now).idle_last_reading = s.idle_last_reading ∧
    ((updateCore cfg (click s now) now2 idle0).phase = Phase.Idle ∨
      (updateCore cfg (click s now) now2 idle0).phase = Phase.AwayComplete) := by
  refine ⟨rfl, rfl, rfl, ?_⟩
  by_cases hr : idleSeconds cfg (click s now) now2 idle0 ≥ cfg.reset_time
  · exact Or.inr (updateCore_away_branch cfg (click s now) now2 idle0 hr).1
  · exact Or.inl (updateCore_idle_branch cfg (click s now) now2 idle0 hr h).1

/-- Witness for C7 at a concrete click and tick: defaults, a click at
5000 ms, then a tick with a raw reading of 50000 ms = 50 idle seconds. -/
theorem C7_click_resets_start_only_witness :
    (click ⟨0, 0, 0⟩ 5000).start_time = 5000 ∧
    (click ⟨0, 0, 0⟩ 5000).idle_start_time = 0 ∧
    (click ⟨0, 0, 0⟩ 5000).idle_last_reading = 0 ∧
    ((updateCore ⟨1, 300, 10⟩ (click ⟨0, 0, 0⟩ 5000) 5000 50000).phase = Phase.Idle ∨
      (updateCore ⟨1, 300, 10⟩ (click ⟨0, 0, 0⟩ 5000) 5000 50000).phase
          = Phase.AwayComplete) :=
  C7_click_resets_start_only ⟨0, 0, 0⟩ 5000 ⟨1, 300, 10⟩ 5000 50000 (by decide)

/-- Claim C9: the idle query never produces an error — an unsupported query
(status 0) yields `Ok(0)` and a supported one yields `Ok` of the reading —
and for every query outcome the tick unwraps successfully and returns a
result (never a panic). -/
theorem C9_idle_query_never_fails (queryStatus : Int) (infoIdle : Nat)
    (cfg : ActivityConfig) (s : ActivityState) (now : Nat) :
    (queryStatus = 0 → get_idle queryStatus infoIdle = Except.ok 0) ∧
    (∃ v, get_idle queryStatus infoIdle = Except.ok v) ∧
    (∃ r, update cfg s now queryStatus infoIdle = some r) := by
  refine ⟨?_, ?_, ?_⟩
  · intro h
    rw [get_idle, if_pos h]
  · by_cases h : queryStatus = 0
    · exact ⟨0, by rw [get_idle, if_pos h]⟩
    · exact ⟨infoIdle, by rw [get_idle, if_neg h]⟩
  · by_cases h : queryStatus = 0
    · exact ⟨updateCore cfg s now 0, by rw [update, get_idle, if_pos h]; rfl⟩
    · exact ⟨updateCore cfg s now infoIdle, by rw [update, get_idle, if_neg h]; rfl⟩

end Activity
